import Mathlib

/-!
Verification of the polling/reconciliation engine of the `obs-stats`
dashboard (`src/main.tsx`).

Shallow embedding conventions:
* JS numbers holding frame/byte counters are modelled as `ℤ` (adjusted
  values may go negative after subtraction); percentages and other
  non-counter metrics are modelled as `ℚ`.
* `Record<string, T>` objects are modelled as association lists in
  insertion order; property assignment keeps the position of an existing
  key and appends a fresh key, matching JS object semantics.
* `x?.f || 0` is modelled with `Option` and `getD 0`; numeric JS
  truthiness (`n && p`) is modelled as `n ≠ 0 ∧ p`.
* React `setState` persistence is irrelevant to the dataflow proved here:
  `applyStatOffset` mutates its local `offset` object before the
  subtraction step, which is modelled by threading the corrected offset.
-/

namespace ObsStats

/-- `GetStats` response (`ObsStatus` in the source): process-wide metrics. -/
structure ObsStatus where
  cpuUsage : ℚ
  memoryUsage : ℚ
  availableDiskSpace : ℚ
  activeFps : ℚ
  averageFrameRenderTime : ℚ
  renderSkippedFrames : ℤ
  renderTotalFrames : ℤ
  outputSkippedFrames : ℤ
  outputTotalFrames : ℤ
  webSocketSessionIncomingMessages : ℤ
  webSocketSessionOutgoingMessages : ℤ
deriving DecidableEq, Repr

/-- `GetOutputStatus` response (`OutputStatus` in the source). -/
structure OutputStatus where
  outputActive : Bool
  outputReconnecting : Bool
  outputTimecode : String
  outputDuration : ℤ
  outputCongestion : ℚ
  outputBytes : ℤ
  outputSkippedFrames : ℤ
  outputTotalFrames : ℤ
deriving DecidableEq, Repr

/-- `interface Output`: a named output together with its status. -/
structure Output where
  name : String
  status : OutputStatus
deriving DecidableEq, Repr

/-- `interface Status`: one snapshot = global stats plus the ordered output list. -/
structure Status where
  stats : ObsStatus
  outputs : List Output
deriving DecidableEq, Repr

/-- `interface State`: the rolling snapshot pair held by `useStatus`. -/
structure State where
  status : Option Status
  prevStatus : Option Status
deriving DecidableEq, Repr

/-- The per-output entry of `FrameOffset.outputs`. -/
structure OutputFrameOffset where
  outputSkippedFrames : ℤ
  outputTotalFrames : ℤ
deriving DecidableEq, Repr

/-- `interface FrameOffset`: the baseline subtracted from raw counters.
`outputs : Record<string, {..}>` is an association list in insertion order. -/
structure FrameOffset where
  renderSkippedFrames : ℤ
  renderTotalFrames : ℤ
  outputSkippedFrames : ℤ
  outputTotalFrames : ℤ
  outputs : List (String × OutputFrameOffset)
deriving DecidableEq, Repr

def THRESHOLD_WARNING : ℚ := 1 / 100

def THRESHOLD_CRITICAL : ℚ := 5 / 100

def POLLING_INTERVAL : ℚ := 2000

/-- `nullObsStatus` constant from the source. -/
def nullObsStatus : ObsStatus :=
  { cpuUsage := 0
    memoryUsage := 0
    availableDiskSpace := 0
    activeFps := 0
    averageFrameRenderTime := 0
    renderSkippedFrames := 0
    renderTotalFrames := 0
    outputSkippedFrames := 0
    outputTotalFrames := 0
    webSocketSessionIncomingMessages := 0
    webSocketSessionOutgoingMessages := 0 }

/-- `nullFrameOffset` constant from the source. -/
def nullFrameOffset : FrameOffset :=
  { renderSkippedFrames := 0
    renderTotalFrames := 0
    outputSkippedFrames := 0
    outputTotalFrames := 0
    outputs := [] }

/-- JS property read `m[n]` on the `outputs` record. -/
def lookupOutputOffset (m : List (String × OutputFrameOffset)) (n : String) :
    Option OutputFrameOffset :=
  (m.find? (fun p => p.1 == n)).map Prod.snd

/-- JS property write `m[n] = v`: replaces the value at an existing key in
place, appends a fresh key at the end. -/
def setOutputOffset : List (String × OutputFrameOffset) → String → OutputFrameOffset →
    List (String × OutputFrameOffset)
  | [], n, v => [(n, v)]
  | (k, e) :: rest, n, v =>
      if k == n then (k, v) :: rest else (k, e) :: setOutputOffset rest n v

/-- `Object.fromEntries`: builds a record by assigning each entry in order. -/
def fromEntries (l : List (String × OutputFrameOffset)) :
    List (String × OutputFrameOffset) :=
  l.foldl (fun m p => setOutputOffset m p.1 p.2) []

/-- `state.status?.stats.renderTotalFrames || 0` and friends. -/
def currRenderTotal (state : State) : ℤ :=
  (state.status.map (fun s => s.stats.renderTotalFrames)).getD 0

def prevRenderTotal (state : State) : ℤ :=
  (state.prevStatus.map (fun s => s.stats.renderTotalFrames)).getD 0

def currOutputTotal (state : State) : ℤ :=
  (state.status.map (fun s => s.stats.outputTotalFrames)).getD 0

def prevOutputTotal (state : State) : ℤ :=
  (state.prevStatus.map (fun s => s.stats.outputTotalFrames)).getD 0

/-- `state.status?.outputs || []`. -/
def currOutputs (state : State) : List Output :=
  (state.status.map Status.outputs).getD []

/-- `state.prevStatus?.outputs.find(p => p.name === name) || null`. -/
def findPrevOutput (state : State) (name : String) : Option Output :=
  state.prevStatus.bind (fun s => s.outputs.find? (fun p => p.name == name))

/-- First rollback check of `applyStatOffset` (render-frame pair). -/
def rollbackRender (state : State) (offset : FrameOffset) : FrameOffset :=
  if offset.renderTotalFrames ≠ 0 ∧ currRenderTotal state < prevRenderTotal state then
    { offset with renderSkippedFrames := 0, renderTotalFrames := 0 }
  else offset

/-- Second rollback check of `applyStatOffset` (global output-frame pair). -/
def rollbackOutputGlobal (state : State) (offset : FrameOffset) : FrameOffset :=
  if offset.outputTotalFrames ≠ 0 ∧ currOutputTotal state < prevOutputTotal state then
    { offset with outputSkippedFrames := 0, outputTotalFrames := 0 }
  else offset

/-- Condition of the per-output rollback check:
`offset.outputs[output.name]?.outputTotalFrames &&
 output.status.outputTotalFrames < (prevOutput?.status.outputTotalFrames || 0)`. -/
def outputRollbackCond (state : State) (offset : FrameOffset) (output : Output) : Bool :=
  match lookupOutputOffset offset.outputs output.name with
  | some e =>
      e.outputTotalFrames != 0 &&
        decide (output.status.outputTotalFrames <
          ((findPrevOutput state output.name).map
            (fun p => p.status.outputTotalFrames)).getD 0)
  | none => false

/-- One iteration of the `forEach` over `state.status?.outputs || []`. -/
def rollbackOneOutput (state : State) (off : FrameOffset) (output : Output) : FrameOffset :=
  if outputRollbackCond state off output then
    { off with outputs := setOutputOffset off.outputs output.name ⟨0, 0⟩ }
  else off

/-- The whole `forEach` loop (per-output rollback checks). -/
def rollbackOutputs (state : State) (offset : FrameOffset) : FrameOffset :=
  (currOutputs state).foldl (rollbackOneOutput state) offset

/-- The three rollback checks of `applyStatOffset`, in source order; the
result is the offset object as it stands when the subtraction step runs. -/
def reconcileRollback (state : State) (offset : FrameOffset) : FrameOffset :=
  rollbackOutputs state (rollbackOutputGlobal state (rollbackRender state offset))

/-- Subtraction applied to one `ObsStatus` (shared shape of `adjustedStats`
and `adjustedPrevStats`). -/
def adjustStats (offset : FrameOffset) (orig : ObsStatus) : ObsStatus :=
  { orig with
    renderSkippedFrames := orig.renderSkippedFrames - offset.renderSkippedFrames
    renderTotalFrames := orig.renderTotalFrames - offset.renderTotalFrames
    outputSkippedFrames := orig.outputSkippedFrames - offset.outputSkippedFrames
    outputTotalFrames := orig.outputTotalFrames - offset.outputTotalFrames }

/-- Subtraction applied to one output (shared shape of the two `.map`
callbacks building `adjustedOutputs` and `adjustedPrevOutputs`). -/
def adjustOutput (offset : FrameOffset) (o : Output) : Output :=
  let origOutputOffset := (lookupOutputOffset offset.outputs o.name).getD ⟨0, 0⟩
  { name := o.name
    status := { o.status with
      outputSkippedFrames := o.status.outputSkippedFrames - origOutputOffset.outputSkippedFrames
      outputTotalFrames := o.status.outputTotalFrames - origOutputOffset.outputTotalFrames } }

/-- Return type of `applyStatOffset`. -/
structure AdjustedState where
  adjustedStats : ObsStatus
  adjustedPrevStats : Option ObsStatus
  adjustedOutputs : List Output
  adjustedPrevOutputs : List Output
deriving DecidableEq, Repr

/-- `applyStatOffset(state, offset, setOffset)` from the source: run the
three rollback checks (which mutate the local `offset`), then subtract the
corrected offset from both snapshots. -/
def applyStatOffset (state : State) (offset0 : FrameOffset) : AdjustedState :=
  let offset := reconcileRollback state offset0
  let origStats := (state.status.map Status.stats).getD nullObsStatus
  { adjustedStats := adjustStats offset origStats
    adjustedPrevStats := (state.prevStatus.map Status.stats).map (adjustStats offset)
    adjustedOutputs := (currOutputs state).map (adjustOutput offset)
    adjustedPrevOutputs :=
      ((state.prevStatus.map Status.outputs).getD []).map (adjustOutput offset) }

/-- The `reset` closure of `Dashboard`: `setOffset({...})` replaces the
whole offset with the raw values of the current snapshot; the previous
offset (the updater argument) is ignored. -/
def reset (state : State) (_oldOffset : FrameOffset) : FrameOffset :=
  { renderSkippedFrames := (state.status.map (fun s => s.stats.renderSkippedFrames)).getD 0
    renderTotalFrames := (state.status.map (fun s => s.stats.renderTotalFrames)).getD 0
    outputSkippedFrames := (state.status.map (fun s => s.stats.outputSkippedFrames)).getD 0
    outputTotalFrames := (state.status.map (fun s => s.stats.outputTotalFrames)).getD 0
    outputs := fromEntries ((currOutputs state).map (fun o =>
      (o.name, ⟨o.status.outputSkippedFrames, o.status.outputTotalFrames⟩))) }

/-- `skippedRatio` inside `frameCounter`: `total > 0 ? skipped/total : 0`,
with exact rational division standing for JS float division. -/
def skippedRatio (totalFrames skippedFrames : ℤ) : ℚ :=
  if totalFrames > 0 then (skippedFrames : ℚ) / (totalFrames : ℚ) else 0

/-- JS `Number.prototype.toFixed(1)` on a non-negative value: round to the
nearest tenth (half away from zero) and print one decimal digit. -/
def toFixed1 (q : ℚ) : String :=
  let n : ℤ := ⌊q * 10 + 1 / 2⌋
  toString (n / 10) ++ "." ++ toString (n % 10)

/-- Return value of `frameCounter`. -/
structure FrameCounterResult where
  counterText : String
  counterClass : String
deriving DecidableEq, Repr

/-- `frameCounter(totalFrames, skippedFrames)` from the source. -/
def frameCounter (totalFrames skippedFrames : ℤ) : FrameCounterResult :=
  let ratio := skippedRatio totalFrames skippedFrames
  { counterClass :=
      if ratio > THRESHOLD_CRITICAL then "lag--critical"
      else if ratio > THRESHOLD_WARNING then "lag--warning"
      else "lag--normal"
    counterText :=
      toString skippedFrames ++ "/" ++ toString totalFrames ++
        " (" ++ toFixed1 (ratio * 100) ++ "%)" }

/-- `bitsSinceLastPoll` from `OutputStats`: zero when there is no previous
entry or the previous cumulative byte count exceeds the current one. -/
def bitsSinceLastPoll (stats : Output) (prevStats : Option Output) : ℤ :=
  match prevStats with
  | some p =>
      if p.status.outputBytes ≤ stats.status.outputBytes then
        (stats.status.outputBytes - p.status.outputBytes) * 8
      else 0
  | none => 0

/-- The numeric throughput rendered by the `bitrate` string:
`bitsSinceLastPoll / POLLING_INTERVAL`. -/
def throughput (stats : Output) (prevStats : Option Output) : ℚ :=
  (bitsSinceLastPoll stats prevStats : ℚ) / POLLING_INTERVAL

/-- `renderFramesDropped` from `ObsStats` (the component):
`!!prevStats && stats.renderSkippedFrames > prevStats.renderSkippedFrames`. -/
def renderFramesDropped (stats : ObsStatus) (prevStats : Option ObsStatus) : Bool :=
  match prevStats with
  | some p => decide (stats.renderSkippedFrames > p.renderSkippedFrames)
  | none => false

/-- `encodeFramesDropped` from `ObsStats` (the component). -/
def encodeFramesDropped (stats : ObsStatus) (prevStats : Option ObsStatus) : Bool :=
  match prevStats with
  | some p => decide (stats.outputSkippedFrames > p.outputSkippedFrames)
  | none => false

/-- `droppedFrames` from `OutputStats`:
`!!prevStats && skippedFrames > prevStats.status.outputSkippedFrames`. -/
def droppedFrames (stats : Output) (prevStats : Option Output) : Bool :=
  match prevStats with
  | some p => decide (stats.status.outputSkippedFrames > p.status.outputSkippedFrames)
  | none => false

/-! ## Sampling loop (`useStatus`)

One tick of `fetchStats` is embedded as a pure transition on the loop
state (the `outputNames` ref plus the `status`/`prevStatus` pair), with
the network responses of the tick supplied as data.  A failed batch call
rejects the async function before `setStatus` runs, so it commits no
snapshot; when `outputNames` was empty the tick first fetches the output
list synchronously, so a batch failure after that prefetch still leaves
the refreshed name list behind. -/

/-- The responses of one tick's batched request, in batch order:
`GetOutputList`, `GetStats`, then one `GetOutputStatus` per known name
(`responseData` is `none` when that sub-request failed). -/
structure TickResponses where
  outputListResp : List String
  statsResp : ObsStatus
  outputStatusResps : List (Option OutputStatus)
deriving DecidableEq, Repr

/-- The mutable state of `useStatus`: the `outputNames` ref and the two
snapshot state hooks. -/
structure LoopState where
  outputNames : List String
  status : Option Status
  prevStatus : Option Status
deriving DecidableEq, Repr

/-- Initial loop state: empty name list, no snapshots. -/
def initLoopState : LoopState := ⟨[], none, none⟩

/-- Names used for this tick's status requests: the prefetched list when
the known list was empty, otherwise the list remembered from last tick. -/
def usedNames (s : LoopState) (prefetch : List String) : List String :=
  if s.outputNames.isEmpty then prefetch else s.outputNames

/-- Pairing of the known names with the per-output status responses by
positional index, dropping responses whose `responseData` is absent
(`.filter(o => o.status)`). -/
def buildOutputs (names : List String) (resps : List (Option OutputStatus)) : List Output :=
  (names.zip resps).filterMap (fun p => p.2.map (fun st => Output.mk p.1 st))

/-- One successful `fetchStats` tick: build the snapshot from this tick's
names and responses, rotate the snapshot pair, then refresh the known-name
list from this same batch's list result (used only by the next tick). -/
def fetchStats (s : LoopState) (prefetch : List String) (resp : TickResponses) : LoopState :=
  let names := usedNames s prefetch
  let snapshot : Status := ⟨resp.statsResp, buildOutputs names resp.outputStatusResps⟩
  { outputNames := resp.outputListResp
    status := some snapshot
    prevStatus := s.status }

/-- What can happen on one scheduled tick. -/
inductive TickEvent
  | success (prefetch : List String) (resp : TickResponses)
  | failureBeforePrefetch
  | failureAfterPrefetch (prefetch : List String)
deriving DecidableEq, Repr

def TickEvent.isSuccess : TickEvent → Bool
  | .success _ _ => true
  | _ => false

/-- Transition of the sampling loop on one tick event. -/
def stepTick (s : LoopState) : TickEvent → LoopState
  | .success prefetch resp => fetchStats s prefetch resp
  | .failureBeforePrefetch => s
  | .failureAfterPrefetch prefetch =>
      if s.outputNames.isEmpty then { s with outputNames := prefetch } else s

/-- Run a sequence of tick events. -/
def runTicks (s : LoopState) (evs : List TickEvent) : LoopState :=
  evs.foldl stepTick s

/-! ## Connection (`login`) -/

/-- `ConnectionResult = [OBSWebSocket | null, string | null]`; the socket
handle is abstracted to `Unit`. -/
def ConnectionResult := Option Unit × Option String
deriving instance DecidableEq for ConnectionResult

/-- The browser and transport environment `login` runs against:
`parseURL` is the WHATWG `new URL(...)` constructor (`Except.error` is the
thrown `TypeError` message), `connect` is `obs.connect` (`Except.error` is
the rejection's `Error.message`). -/
structure LoginEnv where
  parseURL : String → Except String String
  connect : String → Option String → Except String Unit

/-- `address.includes('://') ? address : ws://address`. -/
def defaultScheme (address : String) : String :=
  if (address.splitOn "://").length ≠ 1 then address else "ws://" ++ address

/-- `login(address, password)`: an `Except.error` result models the async
function's returned promise rejecting (the `new URL` throw happens before
`obs.connect`, outside the `.catch` that produces `[null, message]`). -/
def login (env : LoginEnv) (address password : String) :
    Except String ConnectionResult :=
  match env.parseURL (defaultScheme address) with
  | .error e => .error e
  | .ok href =>
      match env.connect href (if password = "" then none else some password) with
      | .ok _ => .ok (some (), none)
      | .error msg => .ok (none, some msg)

/-! ## Concrete values used by examples, witnesses and counterexamples -/

/-- Current global stats reporting raw `renderTotalFrames = 40`. -/
def exStatsCur : ObsStatus :=
  { nullObsStatus with renderTotalFrames := 40, renderSkippedFrames := 7, cpuUsage := 5 }

/-- Previous global stats reporting raw `renderTotalFrames = 500`. -/
def exStatsPrev : ObsStatus :=
  { nullObsStatus with renderTotalFrames := 500, renderSkippedFrames := 3 }

/-- A concrete output status. -/
def exOutStatus (bytes skipped total : ℤ) : OutputStatus :=
  { outputActive := true
    outputReconnecting := false
    outputTimecode := "00:00:01"
    outputDuration := 1000
    outputCongestion := 0
    outputBytes := bytes
    outputSkippedFrames := skipped
    outputTotalFrames := total }

def exOutputCur : Output := ⟨"simple_stream", exOutStatus 3000 2 50⟩

def exOutputPrev : Output := ⟨"simple_stream", exOutStatus 5000 1 40⟩

/-- Snapshot pair whose raw current `renderTotalFrames` (40) is below the
previous one (500): an upstream counter rollback. -/
def exState : State :=
  ⟨some ⟨exStatsCur, [exOutputCur]⟩, some ⟨exStatsPrev, [exOutputPrev]⟩⟩

/-- A baseline with `renderTotalFrames = 100`, as left by an earlier reset. -/
def exOffset : FrameOffset := { nullFrameOffset with renderTotalFrames := 100 }

/-- A snapshot pair with no previous snapshot, hence no detectable rollback. -/
def exStateNoRb : State := ⟨some ⟨exStatsPrev, [exOutputPrev]⟩, none⟩

/-- Environment whose URL parser rejects everything. -/
def envNoParse : LoginEnv :=
  ⟨fun _ => .error "Invalid URL", fun _ _ => .ok ()⟩

/-- Environment that parses any address and refuses authentication. -/
def envAuthFail : LoginEnv :=
  ⟨fun s => .ok s, fun _ _ => .error "Authentication failed."⟩

/-- Whether `login`'s promise resolved (fulfilled) rather than rejected. -/
def loginResolved : Except String ConnectionResult → Bool
  | .ok _ => true
  | .error _ => false

/-- A concrete tick response batch for one known output. -/
def exTickResp : TickResponses :=
  ⟨["adv_stream"], exStatsCur, [some (exOutStatus 100 0 10)]⟩

/-! ## Helper lemmas -/

lemma lookup_nil (n : String) : lookupOutputOffset [] n = none := rfl

lemma lookup_cons (k' : String) (e : OutputFrameOffset)
    (rest : List (String × OutputFrameOffset)) (n : String) :
    lookupOutputOffset ((k', e) :: rest) n =
      if k' = n then some e else lookupOutputOffset rest n := by
  unfold lookupOutputOffset
  by_cases h : k' = n
  · rw [List.find?_cons_of_pos _ (by simpa using h), if_pos h]
    rfl
  · rw [List.find?_cons_of_neg _ (by simpa using h), if_neg h]

lemma set_nil (k : String) (v : OutputFrameOffset) :
    setOutputOffset [] k v = [(k, v)] := rfl

lemma set_cons (k' : String) (e : OutputFrameOffset)
    (rest : List (String × OutputFrameOffset)) (n : String) (v : OutputFrameOffset) :
    setOutputOffset ((k', e) :: rest) n v =
      if k' = n then (k', v) :: rest else (k', e) :: setOutputOffset rest n v := by
  simp [setOutputOffset]

lemma lookup_set_self (m : List (String × OutputFrameOffset)) (k : String)
    (v : OutputFrameOffset) : lookupOutputOffset (setOutputOffset m k v) k = some v := by
  induction m with
  | nil => rw [set_nil, lookup_cons, if_pos rfl]
  | cons p rest ih =>
      obtain ⟨k', e⟩ := p
      rw [set_cons]
      by_cases h : k' = k
      · subst h
        rw [if_pos rfl, lookup_cons, if_pos rfl]
      · rw [if_neg h, lookup_cons, if_neg h]
        exact ih

lemma lookup_set_ne (m : List (String × OutputFrameOffset)) (k n : String)
    (v : OutputFrameOffset) (h : k ≠ n) :
    lookupOutputOffset (setOutputOffset m k v) n = lookupOutputOffset m n := by
  induction m with
  | nil => rw [set_nil, lookup_cons, if_neg h, lookup_nil]
  | cons p rest ih =>
      obtain ⟨k', e⟩ := p
      rw [set_cons]
      by_cases hk : k' = k
      · subst hk
        rw [if_pos rfl, lookup_cons, lookup_cons, if_neg h, if_neg h]
      · rw [if_neg hk, lookup_cons, lookup_cons, ih]

lemma rollbackOneOutput_scalars (state : State) (off : FrameOffset) (o : Output) :
    (rollbackOneOutput state off o).renderSkippedFrames = off.renderSkippedFrames ∧
    (rollbackOneOutput state off o).renderTotalFrames = off.renderTotalFrames ∧
    (rollbackOneOutput state off o).outputSkippedFrames = off.outputSkippedFrames ∧
    (rollbackOneOutput state off o).outputTotalFrames = off.outputTotalFrames := by
  unfold rollbackOneOutput
  split <;> simp

lemma foldl_rollback_scalars (state : State) (outs : List Output) (off : FrameOffset) :
    (outs.foldl (rollbackOneOutput state) off).renderSkippedFrames = off.renderSkippedFrames ∧
    (outs.foldl (rollbackOneOutput state) off).renderTotalFrames = off.renderTotalFrames ∧
    (outs.foldl (rollbackOneOutput state) off).outputSkippedFrames = off.outputSkippedFrames ∧
    (outs.foldl (rollbackOneOutput state) off).outputTotalFrames = off.outputTotalFrames := by
  induction outs generalizing off with
  | nil => simp
  | cons a as ih =>
      simp only [List.foldl_cons]
      obtain ⟨h1, h2, h3, h4⟩ := ih (rollbackOneOutput state off a)
      obtain ⟨g1, g2, g3, g4⟩ := rollbackOneOutput_scalars state off a
      exact ⟨h1.trans g1, h2.trans g2, h3.trans g3, h4.trans g4⟩

lemma outputRollbackCond_congr (state : State) (off1 off2 : FrameOffset) (o : Output)
    (h : lookupOutputOffset off1.outputs o.name = lookupOutputOffset off2.outputs o.name) :
    outputRollbackCond state off1 o = outputRollbackCond state off2 o := by
  unfold outputRollbackCond
  rw [h]

lemma lookup_rollbackOneOutput_ne (state : State) (off : FrameOffset) (o : Output)
    (n : String) (h : o.name ≠ n) :
    lookupOutputOffset (rollbackOneOutput state off o).outputs n =
      lookupOutputOffset off.outputs n := by
  unfold rollbackOneOutput
  split
  · simpa using lookup_set_ne off.outputs o.name n ⟨0, 0⟩ h
  · rfl

lemma lookup_foldl_not_mem (state : State) (outs : List Output) (off : FrameOffset)
    (n : String) (h : n ∉ outs.map Output.name) :
    lookupOutputOffset ((outs.foldl (rollbackOneOutput state) off)).outputs n =
      lookupOutputOffset off.outputs n := by
  induction outs generalizing off with
  | nil => rfl
  | cons a as ih =>
      simp only [List.map_cons, List.mem_cons, not_or] at h
      simp only [List.foldl_cons]
      rw [ih (rollbackOneOutput state off a) h.2]
      exact lookup_rollbackOneOutput_ne state off a n (fun he => h.1 he.symm)

lemma lookup_foldl_mem (state : State) (outs : List Output) (off : FrameOffset)
    (o : Output) (ho : o ∈ outs) (hnd : (outs.map Output.name).Nodup) :
    lookupOutputOffset ((outs.foldl (rollbackOneOutput state) off)).outputs o.name =
      if outputRollbackCond state off o then some ⟨0, 0⟩
      else lookupOutputOffset off.outputs o.name := by
  induction outs generalizing off with
  | nil => cases ho
  | cons a as ih =>
      simp only [List.map_cons, List.nodup_cons] at hnd
      rcases List.mem_cons.mp ho with rfl | hmem
      · simp only [List.foldl_cons]
        rw [lookup_foldl_not_mem state as (rollbackOneOutput state off o) o.name hnd.1]
        unfold rollbackOneOutput
        split
        · next hc =>
            simp only [hc, if_true]
            exact lookup_set_self off.outputs o.name ⟨0, 0⟩
        · next hc => simp only [Bool.not_eq_true] at hc; simp [hc]
      · have hne : a.name ≠ o.name := by
          intro he
          exact hnd.1 (he ▸ List.mem_map.mpr ⟨o, hmem, rfl⟩)
        simp only [List.foldl_cons]
        rw [ih (rollbackOneOutput state off a) hmem hnd.2]
        rw [outputRollbackCond_congr state (rollbackOneOutput state off a) off o
          (lookup_rollbackOneOutput_ne state off a o.name hne)]
        rw [lookup_rollbackOneOutput_ne state off a o.name hne]

lemma rollbackRender_outputs (state : State) (off : FrameOffset) :
    (rollbackRender state off).outputs = off.outputs := by
  unfold rollbackRender
  split <;> rfl

lemma rollbackOutputGlobal_outputs (state : State) (off : FrameOffset) :
    (rollbackOutputGlobal state off).outputs = off.outputs := by
  unfold rollbackOutputGlobal
  split <;> rfl

lemma rollbackOutputGlobal_render (state : State) (off : FrameOffset) :
    (rollbackOutputGlobal state off).renderSkippedFrames = off.renderSkippedFrames ∧
    (rollbackOutputGlobal state off).renderTotalFrames = off.renderTotalFrames := by
  unfold rollbackOutputGlobal
  split <;> simp

lemma rollbackRender_output_fields (state : State) (off : FrameOffset) :
    (rollbackRender state off).outputSkippedFrames = off.outputSkippedFrames ∧
    (rollbackRender state off).outputTotalFrames = off.outputTotalFrames := by
  unfold rollbackRender
  split <;> simp

lemma set_append_of_not_mem (acc : List (String × OutputFrameOffset)) (k : String)
    (v : OutputFrameOffset) (h : ∀ p ∈ acc, p.1 ≠ k) :
    setOutputOffset acc k v = acc ++ [(k, v)] := by
  induction acc with
  | nil => rfl
  | cons p rest ih =>
      obtain ⟨k', e⟩ := p
      have hk : k' ≠ k := h (k', e) (List.mem_cons_self _ _)
      rw [set_cons, if_neg hk, List.cons_append]
      rw [ih (fun q hq => h q (List.mem_cons_of_mem _ hq))]

lemma foldl_set_append (l acc : List (String × OutputFrameOffset))
    (hnd : (l.map Prod.fst).Nodup) (hdisj : ∀ p ∈ acc, ∀ q ∈ l, p.1 ≠ q.1) :
    l.foldl (fun m p => setOutputOffset m p.1 p.2) acc = acc ++ l := by
  induction l generalizing acc with
  | nil => simp
  | cons q rest ih =>
      simp only [List.map_cons, List.nodup_cons] at hnd
      simp only [List.foldl_cons]
      rw [set_append_of_not_mem acc q.1 q.2
        (fun p hp => hdisj p hp q (List.mem_cons_self _ _))]
      rw [ih (acc ++ [(q.1, q.2)]) hnd.2]
      · simp
      · intro p hp r hr
        rcases List.mem_append.mp hp with hp' | hp'
        · exact hdisj p hp' r (List.mem_cons_of_mem _ hr)
        · simp only [List.mem_singleton] at hp'
          subst hp'
          intro he
          exact hnd.1 (he ▸ List.mem_map.mpr ⟨r, hr, rfl⟩)

lemma fromEntries_of_nodup (l : List (String × OutputFrameOffset))
    (hnd : (l.map Prod.fst).Nodup) : fromEntries l = l := by
  unfold fromEntries
  rw [foldl_set_append l [] hnd (by simp)]
  simp

lemma lookup_map_mk (outs : List Output) (f : Output → OutputFrameOffset) (o : Output)
    (ho : o ∈ outs) (hnd : (outs.map Output.name).Nodup) :
    lookupOutputOffset (outs.map (fun x => (x.name, f x))) o.name = some (f o) := by
  induction outs with
  | nil => cases ho
  | cons a as ih =>
      simp only [List.map_cons, List.nodup_cons] at hnd
      rcases List.mem_cons.mp ho with rfl | hmem
      · rw [List.map_cons, lookup_cons, if_pos rfl]
      · have hne : a.name ≠ o.name := by
          intro he
          exact hnd.1 (he ▸ List.mem_map.mpr ⟨o, hmem, rfl⟩)
        rw [List.map_cons, lookup_cons, if_neg hne]
        exact ih hmem hnd.2

lemma mem_buildOutputs (names : List String) (resps : List (Option OutputStatus))
    (o : Output) :
    o ∈ buildOutputs names resps ↔
      ∃ i, names.get? i = some o.name ∧ resps.get? i = some (some o.status) := by
  induction names generalizing resps with
  | nil => simp [buildOutputs]
  | cons n ns ih =>
      cases resps with
      | nil => simp [buildOutputs]
      | cons r rs =>
          cases r with
          | none =>
              rw [show buildOutputs (n :: ns) (none :: rs) = buildOutputs ns rs from rfl, ih]
              constructor
              · rintro ⟨i, h1, h2⟩
                exact ⟨i + 1, by simpa using h1, by simpa using h2⟩
              · rintro ⟨i, h1, h2⟩
                cases i with
                | zero => simp at h2
                | succ i => exact ⟨i, by simpa using h1, by simpa using h2⟩
          | some st =>
              rw [show buildOutputs (n :: ns) (some st :: rs) =
                Output.mk n st :: buildOutputs ns rs from rfl]
              rw [List.mem_cons, ih]
              constructor
              · rintro (rfl | ⟨i, h1, h2⟩)
                · exact ⟨0, rfl, rfl⟩
                · exact ⟨i + 1, by simpa using h1, by simpa using h2⟩
              · rintro ⟨i, h1, h2⟩
                cases i with
                | zero =>
                    left
                    obtain ⟨nm, stt⟩ := o
                    obtain rfl : n = nm := by simpa using h1
                    obtain rfl : st = stt := by simpa using h2
                    rfl
                | succ i =>
                    right
                    exact ⟨i, by simpa using h1, by simpa using h2⟩

lemma name_mem_of_mem_buildOutputs (names : List String)
    (resps : List (Option OutputStatus)) (o : Output) (h : o ∈ buildOutputs names resps) :
    o.name ∈ names := by
  obtain ⟨i, h1, _⟩ := (mem_buildOutputs names resps o).mp h
  exact List.get?_mem h1

lemma stepTick_nosucc (s : LoopState) (e : TickEvent) (h : e.isSuccess = false) :
    (stepTick s e).status = s.status ∧ (stepTick s e).prevStatus = s.prevStatus := by
  cases e with
  | success p r => simp [TickEvent.isSuccess] at h
  | failureBeforePrefetch => exact ⟨rfl, rfl⟩
  | failureAfterPrefetch p =>
      by_cases hb : s.outputNames.isEmpty <;> simp [stepTick, hb]

lemma runTicks_nosucc (s : LoopState) (evs : List TickEvent)
    (h : ∀ e ∈ evs, e.isSuccess = false) :
    (runTicks s evs).status = s.status ∧ (runTicks s evs).prevStatus = s.prevStatus := by
  induction evs generalizing s with
  | nil => exact ⟨rfl, rfl⟩
  | cons e es ih =>
      have h1 := stepTick_nosucc s e (h e (List.mem_cons_self _ _))
      have h2 := ih (stepTick s e) (fun x hx => h x (List.mem_cons_of_mem _ hx))
      exact ⟨h2.1.trans h1.1, h2.2.trans h1.2⟩

lemma runTicks_append (s : LoopState) (l1 l2 : List TickEvent) :
    runTicks s (l1 ++ l2) = runTicks (runTicks s l1) l2 :=
  List.foldl_append _ _ _ _

lemma reconcile_render_fields (state : State) (offset : FrameOffset) :
    (reconcileRollback state offset).renderTotalFrames =
      (if offset.renderTotalFrames ≠ 0 ∧ currRenderTotal state < prevRenderTotal state
        then 0 else offset.renderTotalFrames) ∧
    (reconcileRollback state offset).renderSkippedFrames =
      (if offset.renderTotalFrames ≠ 0 ∧ currRenderTotal state < prevRenderTotal state
        then 0 else offset.renderSkippedFrames) := by
  have hT := foldl_rollback_scalars state (currOutputs state)
    (rollbackOutputGlobal state (rollbackRender state offset))
  have hG := rollbackOutputGlobal_render state (rollbackRender state offset)
  have hre : reconcileRollback state offset =
      (currOutputs state).foldl (rollbackOneOutput state)
        (rollbackOutputGlobal state (rollbackRender state offset)) := rfl
  constructor
  · rw [hre, hT.2.1, hG.2]
    by_cases h : offset.renderTotalFrames ≠ 0 ∧ currRenderTotal state < prevRenderTotal state
    · simp [rollbackRender, h]
    · simp [rollbackRender, h]
  · rw [hre, hT.1, hG.1]
    by_cases h : offset.renderTotalFrames ≠ 0 ∧ currRenderTotal state < prevRenderTotal state
    · simp [rollbackRender, h]
    · simp [rollbackRender, h]

lemma reconcile_output_fields (state : State) (offset : FrameOffset) :
    (reconcileRollback state offset).outputTotalFrames =
      (if offset.outputTotalFrames ≠ 0 ∧ currOutputTotal state < prevOutputTotal state
        then 0 else offset.outputTotalFrames) ∧
    (reconcileRollback state offset).outputSkippedFrames =
      (if offset.outputTotalFrames ≠ 0 ∧ currOutputTotal state < prevOutputTotal state
        then 0 else offset.outputSkippedFrames) := by
  have hT := foldl_rollback_scalars state (currOutputs state)
    (rollbackOutputGlobal state (rollbackRender state offset))
  have hR := rollbackRender_output_fields state offset
  have hre : reconcileRollback state offset =
      (currOutputs state).foldl (rollbackOneOutput state)
        (rollbackOutputGlobal state (rollbackRender state offset)) := rfl
  have hcond : ((rollbackRender state offset).outputTotalFrames ≠ 0 ∧
      currOutputTotal state < prevOutputTotal state) =
      (offset.outputTotalFrames ≠ 0 ∧ currOutputTotal state < prevOutputTotal state) := by
    rw [hR.2]
  constructor
  · rw [hre, hT.2.2.2]
    unfold rollbackOutputGlobal
    by_cases h : offset.outputTotalFrames ≠ 0 ∧ currOutputTotal state < prevOutputTotal state
    · rw [if_pos (by rw [hcond]; exact h), if_pos h]
    · rw [if_neg (by rw [hcond]; exact h), if_neg h]
      exact hR.2
  · rw [hre, hT.2.2.1]
    unfold rollbackOutputGlobal
    by_cases h : offset.outputTotalFrames ≠ 0 ∧ currOutputTotal state < prevOutputTotal state
    · rw [if_pos (by rw [hcond]; exact h), if_pos h]
    · rw [if_neg (by rw [hcond]; exact h), if_neg h]
      exact hR.1

lemma outputRollbackCond_iff (state : State) (off : FrameOffset) (o : Output) :
    outputRollbackCond state off o = true ↔
      (∃ e, lookupOutputOffset off.outputs o.name = some e ∧ e.outputTotalFrames ≠ 0) ∧
        o.status.outputTotalFrames <
          ((findPrevOutput state o.name).map
            (fun p => p.status.outputTotalFrames)).getD 0 := by
  unfold outputRollbackCond
  cases h : lookupOutputOffset off.outputs o.name with
  | none => simp [h]
  | some e => simp [h]

lemma reconcile_outputs_eq (state : State) (offset : FrameOffset) (o : Output)
    (ho : o ∈ currOutputs state) (hnd : ((currOutputs state).map Output.name).Nodup) :
    lookupOutputOffset (reconcileRollback state offset).outputs o.name =
      if outputRollbackCond state offset o then some ⟨0, 0⟩
      else lookupOutputOffset offset.outputs o.name := by
  have hGout : (rollbackOutputGlobal state (rollbackRender state offset)).outputs =
      offset.outputs := by
    rw [rollbackOutputGlobal_outputs, rollbackRender_outputs]
  have hfold := lookup_foldl_mem state (currOutputs state)
    (rollbackOutputGlobal state (rollbackRender state offset)) o ho hnd
  rw [outputRollbackCond_congr state _ offset o (by rw [hGout]), hGout] at hfold
  exact hfold

lemma reconcile_outputs_not_mem (state : State) (offset : FrameOffset) (n : String)
    (hn : n ∉ (currOutputs state).map Output.name) :
    lookupOutputOffset (reconcileRollback state offset).outputs n =
      lookupOutputOffset offset.outputs n := by
  have hGout : (rollbackOutputGlobal state (rollbackRender state offset)).outputs =
      offset.outputs := by
    rw [rollbackOutputGlobal_outputs, rollbackRender_outputs]
  have h := lookup_foldl_not_mem state (currOutputs state)
    (rollbackOutputGlobal state (rollbackRender state offset)) n hn
  rw [hGout] at h
  exact h

lemma frameCounter_example : frameCounter 120 3 = ⟨"3/120 (2.5%)", "lag--warning"⟩ := by
  have hr : skippedRatio 120 3 = 1 / 40 := by
    norm_num [skippedRatio]
  have hfl : ⌊(1 / 40 : ℚ) * 100 * 10 + 1 / 2⌋ = (25 : ℤ) := by
    apply Int.floor_eq_iff.mpr
    constructor <;> norm_num
  simp only [frameCounter, toFixed1, hr]
  rw [hfl]
  norm_num [THRESHOLD_CRITICAL, THRESHOLD_WARNING]
  decide

lemma bits_example : bitsSinceLastPoll exOutputCur (some exOutputPrev) = 0 := by
  simp only [bitsSinceLastPoll, exOutputCur, exOutputPrev, exOutStatus]
  rw [if_neg (by decide)]

/-! ## Claim theorems -/

/-- Claim C4: `frameCounter` computes `ratio = skipped/total` when `total > 0`
and `0` otherwise; the severity class is critical iff `ratio > 0.05`, warning
iff `0.01 < ratio ≤ 0.05`, normal iff `ratio ≤ 0.01` (boundaries 0.01 and 0.05
classify as normal and warning); `classify(120, 3)` yields the label
`"3/120 (2.5%)"` at warning severity. -/
theorem c4_classifier (totalFrames skippedFrames : ℤ)
    (htot : 0 ≤ totalFrames) (hsk : 0 ≤ skippedFrames) :
    (totalFrames = 0 → skippedRatio totalFrames skippedFrames = 0) ∧
    (0 < totalFrames →
      skippedRatio totalFrames skippedFrames = (skippedFrames : ℚ) / (totalFrames : ℚ)) ∧
    ((frameCounter totalFrames skippedFrames).counterClass = "lag--critical" ↔
      5 / 100 < skippedRatio totalFrames skippedFrames) ∧
    ((frameCounter totalFrames skippedFrames).counterClass = "lag--warning" ↔
      (1 / 100 < skippedRatio totalFrames skippedFrames ∧
        skippedRatio totalFrames skippedFrames ≤ 5 / 100)) ∧
    ((frameCounter totalFrames skippedFrames).counterClass = "lag--normal" ↔
      skippedRatio totalFrames skippedFrames ≤ 1 / 100) ∧
    frameCounter 120 3 = ⟨"3/120 (2.5%)", "lag--warning"⟩ := by
  have hcls : (frameCounter totalFrames skippedFrames).counterClass =
      if THRESHOLD_CRITICAL < skippedRatio totalFrames skippedFrames then "lag--critical"
      else if THRESHOLD_WARNING < skippedRatio totalFrames skippedFrames then "lag--warning"
      else "lag--normal" := rfl
  refine ⟨?_, ?_, ?_, ?_, ?_, frameCounter_example⟩
  · intro h
    simp [skippedRatio, h]
  · intro h
    simp [skippedRatio, h]
  · rw [hcls]
    by_cases h1 : THRESHOLD_CRITICAL < skippedRatio totalFrames skippedFrames
    · rw [if_pos h1]
      exact iff_of_true rfl (by simpa [THRESHOLD_CRITICAL] using h1)
    · rw [if_neg h1]
      refine iff_of_false ?_ (by simpa [THRESHOLD_CRITICAL] using h1)
      by_cases h2 : THRESHOLD_WARNING < skippedRatio totalFrames skippedFrames
      · rw [if_pos h2]
        decide
      · rw [if_neg h2]
        decide
  · rw [hcls]
    by_cases h1 : THRESHOLD_CRITICAL < skippedRatio totalFrames skippedFrames
    · rw [if_pos h1]
      refine iff_of_false (by decide) ?_
      rintro ⟨_, hle⟩
      exact absurd (by simpa [THRESHOLD_CRITICAL] using h1) (not_lt.mpr hle)
    · rw [if_neg h1]
      by_cases h2 : THRESHOLD_WARNING < skippedRatio totalFrames skippedFrames
      · rw [if_pos h2]
        exact iff_of_true rfl ⟨by simpa [THRESHOLD_WARNING] using h2,
          by simpa [THRESHOLD_CRITICAL] using not_lt.mp h1⟩
      · rw [if_neg h2]
        refine iff_of_false (by decide) ?_
        rintro ⟨hgt, _⟩
        exact h2 (by simpa [THRESHOLD_WARNING] using hgt)
  · rw [hcls]
    by_cases h1 : THRESHOLD_CRITICAL < skippedRatio totalFrames skippedFrames
    · rw [if_pos h1]
      refine iff_of_false (by decide) ?_
      intro hle
      have h5 : (5 : ℚ) / 100 < skippedRatio totalFrames skippedFrames := by
        simpa [THRESHOLD_CRITICAL] using h1
      have : skippedRatio totalFrames skippedFrames ≤ 5 / 100 := hle.trans (by norm_num)
      exact absurd h5 (not_lt.mpr this)
    · rw [if_neg h1]
      by_cases h2 : THRESHOLD_WARNING < skippedRatio totalFrames skippedFrames
      · rw [if_pos h2]
        refine iff_of_false (by decide) ?_
        intro hle
        exact absurd (by simpa [THRESHOLD_WARNING] using h2) (not_lt.mpr hle)
      · rw [if_neg h2]
        exact iff_of_true rfl (by simpa [THRESHOLD_WARNING] using not_lt.mp h2)

/-- Witness for C4 at the claim's own example input. -/
theorem c4_classifier_witness :
    frameCounter 120 3 = ⟨"3/120 (2.5%)", "lag--warning"⟩ :=
  (c4_classifier 120 3 (by decide) (by decide)).2.2.2.2.2

/-- Claim C8: the per-output throughput is 0 when no previous entry exists or
the previous cumulative byte count exceeds the current one (never negative),
and `(current − previous) × 8 / POLLING_INTERVAL` otherwise; the concrete pair
previous = 5000, current = 3000 yields 0. -/
theorem c8_byteDelta (stats : Output) (prevStats : Option Output) :
    (prevStats = none → throughput stats prevStats = 0) ∧
    (∀ p, prevStats = some p → stats.status.outputBytes < p.status.outputBytes →
      throughput stats prevStats = 0) ∧
    (∀ p, prevStats = some p → p.status.outputBytes ≤ stats.status.outputBytes →
      throughput stats prevStats =
        (((stats.status.outputBytes - p.status.outputBytes) * 8 : ℤ) : ℚ) /
          POLLING_INTERVAL) ∧
    (0 ≤ throughput stats prevStats) ∧
    throughput exOutputCur (some exOutputPrev) = 0 := by
  refine ⟨?_, ?_, ?_, ?_, by simp [throughput, bits_example]⟩
  · intro h
    subst h
    simp [throughput, bitsSinceLastPoll]
  · rintro p rfl h
    simp [throughput, bitsSinceLastPoll, not_le.mpr h]
  · rintro p rfl h
    simp [throughput, bitsSinceLastPoll, h]
  · have hz : 0 ≤ bitsSinceLastPoll stats prevStats := by
      cases prevStats with
      | none => simp [bitsSinceLastPoll]
      | some p =>
          simp only [bitsSinceLastPoll]
          by_cases h : p.status.outputBytes ≤ stats.status.outputBytes
          · rw [if_pos h]
            exact mul_nonneg (sub_nonneg.mpr h) (by norm_num)
          · rw [if_neg h]
    exact div_nonneg (by exact_mod_cast hz) (by norm_num [POLLING_INTERVAL])

/-- Witness for C8: a restarted engine (previous bytes 5000, current 3000)
reports zero throughput. -/
theorem c8_byteDelta_witness : throughput exOutputCur (some exOutputPrev) = 0 :=
  (c8_byteDelta exOutputCur (some exOutputPrev)).2.1 exOutputPrev rfl (by decide)

/-- Claim C9: every dropped-this-tick indicator is true iff a previous
snapshot (resp. previous entry for that output) exists and the current
skipped count strictly exceeds the previous one; with no previous snapshot
the indicator is always false. -/
theorem c9_droppedIndicator (stats : ObsStatus) (prevStats : Option ObsStatus)
    (o : Output) (po : Option Output) :
    (renderFramesDropped stats prevStats = true ↔
      ∃ p, prevStats = some p ∧ p.renderSkippedFrames < stats.renderSkippedFrames) ∧
    (encodeFramesDropped stats prevStats = true ↔
      ∃ p, prevStats = some p ∧ p.outputSkippedFrames < stats.outputSkippedFrames) ∧
    (droppedFrames o po = true ↔
      ∃ p, po = some p ∧ p.status.outputSkippedFrames < o.status.outputSkippedFrames) ∧
    renderFramesDropped stats none = false ∧
    encodeFramesDropped stats none = false ∧
    droppedFrames o none = false := by
  refine ⟨?_, ?_, ?_, rfl, rfl, rfl⟩
  · cases prevStats with
    | none => simp [renderFramesDropped]
    | some p => simp [renderFramesDropped]
  · cases prevStats with
    | none => simp [encodeFramesDropped]
    | some p => simp [encodeFramesDropped]
  · cases po with
    | none => simp [droppedFrames]
    | some p => simp [droppedFrames]

/-- Witness for C9 at concrete snapshots: one more skipped frame than last
tick raises the per-output indicator. -/
theorem c9_droppedIndicator_witness :
    droppedFrames exOutputCur (some exOutputPrev) = true :=
  (c9_droppedIndicator exStatsCur (some exStatsPrev) exOutputCur
    (some exOutputPrev)).2.2.1.mpr ⟨exOutputPrev, rfl, by decide⟩

/-- Claim C7 counterexample: for an address the URL parser rejects, `login`
does not return a connect-error string at all — the `new URL` throw happens
before `obs.connect`, outside the `.catch`, so the async function's promise
rejects instead of resolving to `[null, message]`. -/
theorem c7_counterexample :
    login envNoParse "not a url" "" = Except.error "Invalid URL" ∧
    loginResolved (login envNoParse "not a url" "") = false := by
  constructor <;> rfl

/-- Claim C7 (amended): for every address whose defaulted form the URL
parser rejects, `login` fails by rejecting with the parse error (no
connection, no returned error string); for every authentication failure
reported by the remote, `login` resolves with no connection and the
remote-supplied error message verbatim; on success it resolves with the
connection and no error. -/
theorem c7_login (env : LoginEnv) (address password : String) :
    (∀ e, env.parseURL (defaultScheme address) = Except.error e →
      login env address password = Except.error e) ∧
    (∀ href msg, env.parseURL (defaultScheme address) = Except.ok href →
      env.connect href (if password = "" then none else some password) =
        Except.error msg →
      login env address password = Except.ok (none, some msg)) ∧
    (∀ href, env.parseURL (defaultScheme address) = Except.ok href →
      env.connect href (if password = "" then none else some password) =
        Except.ok () →
      login env address password = Except.ok (some (), none)) := by
  refine ⟨?_, ?_, ?_⟩
  · intro e he
    simp only [login, he]
  · intro href msg h1 h2
    simp only [login, h1, h2]
  · intro href h1 h2
    simp only [login, h1, h2]

/-- Witness for C7: a refused authentication surfaces the remote message
verbatim. -/
theorem c7_login_witness :
    login envAuthFail "localhost:4455" "pw" =
      Except.ok (none, some "Authentication failed.") :=
  (c7_login envAuthFail "localhost:4455" "pw").2.1
    (defaultScheme "localhost:4455") "Authentication failed." rfl rfl

/-- Claim C6: a successful tick's commit makes the old current snapshot the
new previous one; failed ticks commit nothing; from the initial state,
`prevStatus` is `none` until the second successful poll and afterwards
always equals the snapshot committed by the immediately prior successful
poll (after T1, T2, T3 it is exactly T2's snapshot). -/
theorem c6_prevInvariant :
    (∀ (s : LoopState) (pre : List String) (resp : TickResponses),
      (stepTick s (.success pre resp)).prevStatus = s.status) ∧
    (∀ s : LoopState, stepTick s .failureBeforePrefetch = s) ∧
    (∀ (s : LoopState) (pre : List String),
      (stepTick s (.failureAfterPrefetch pre)).status = s.status ∧
      (stepTick s (.failureAfterPrefetch pre)).prevStatus = s.prevStatus) ∧
    (∀ evs : List TickEvent, (∀ e ∈ evs, e.isSuccess = false) →
      (runTicks initLoopState evs).status = none ∧
      (runTicks initLoopState evs).prevStatus = none) ∧
    (∀ (pre : List TickEvent) (p : List String) (r : TickResponses)
      (post : List TickEvent), (∀ e ∈ post, e.isSuccess = false) →
      (runTicks initLoopState (pre ++ TickEvent.success p r :: post)).prevStatus =
        (runTicks initLoopState pre).status) ∧
    (∀ (p1 p2 p3 : List String) (r1 r2 r3 : TickResponses),
      (runTicks initLoopState
          [TickEvent.success p1 r1, TickEvent.success p2 r2,
            TickEvent.success p3 r3]).prevStatus =
        (runTicks initLoopState
          [TickEvent.success p1 r1, TickEvent.success p2 r2]).status ∧
      (runTicks initLoopState
          [TickEvent.success p1 r1, TickEvent.success p2 r2]).status =
        some ⟨r2.statsResp,
          buildOutputs
            (usedNames (runTicks initLoopState [TickEvent.success p1 r1]) p2)
            r2.outputStatusResps⟩) := by
  refine ⟨fun s pre resp => rfl, fun s => rfl, ?_, ?_, ?_, ?_⟩
  · intro s pre
    exact stepTick_nosucc s _ rfl
  · intro evs h
    exact runTicks_nosucc initLoopState evs h
  · intro pre p r post hpost
    rw [show pre ++ TickEvent.success p r :: post =
      (pre ++ [TickEvent.success p r]) ++ post by simp]
    rw [runTicks_append, runTicks_append]
    rw [(runTicks_nosucc _ post hpost).2]
    rfl
  · intro p1 p2 p3 r1 r2 r3
    exact ⟨rfl, rfl⟩

/-- Witness for C6: a lone failed tick leaves both snapshot pointers empty,
and with one successful tick surrounded by failures the previous pointer is
the pre-success current snapshot. -/
theorem c6_prevInvariant_witness :
    ((runTicks initLoopState [TickEvent.failureBeforePrefetch]).status = none ∧
      (runTicks initLoopState [TickEvent.failureBeforePrefetch]).prevStatus = none) ∧
    (runTicks initLoopState
        ([] ++ TickEvent.success ["adv_stream"] exTickResp ::
          [TickEvent.failureBeforePrefetch])).prevStatus =
      (runTicks initLoopState []).status :=
  ⟨c6_prevInvariant.2.2.2.1 [TickEvent.failureBeforePrefetch] (by decide),
    c6_prevInvariant.2.2.2.2.1 [] ["adv_stream"] exTickResp
      [TickEvent.failureBeforePrefetch] (by decide)⟩

/-- Claim C5: one successful tick pairs the i-th known name with the i-th
status response (dropping null responses), whereas the known-name list is
refreshed from this batch's list result only for the next tick; hence a
name absent from the tick's known list — e.g. an output that first appeared
in this tick's list response — cannot occur in the committed snapshot. -/
theorem c5_snapshot (s : LoopState) (prefetch : List String) (resp : TickResponses)
    (hlen : resp.outputStatusResps.length = (usedNames s prefetch).length) :
    (fetchStats s prefetch resp).outputNames = resp.outputListResp ∧
    (fetchStats s prefetch resp).status =
      some ⟨resp.statsResp, buildOutputs (usedNames s prefetch) resp.outputStatusResps⟩ ∧
    (∀ o : Output,
      o ∈ buildOutputs (usedNames s prefetch) resp.outputStatusResps ↔
        ∃ i, (usedNames s prefetch).get? i = some o.name ∧
          resp.outputStatusResps.get? i = some (some o.status)) ∧
    (∀ n, n ∉ usedNames s prefetch →
      ∀ o ∈ buildOutputs (usedNames s prefetch) resp.outputStatusResps, o.name ≠ n) ∧
    (fetchStats s prefetch resp).prevStatus = s.status := by
  refine ⟨rfl, rfl, ?_, ?_, rfl⟩
  · intro o
    exact mem_buildOutputs _ _ o
  · intro n hn o ho he
    exact hn (he ▸ name_mem_of_mem_buildOutputs _ _ o ho)

/-- Witness for C5 on a concrete first tick. -/
theorem c5_snapshot_witness :
    (fetchStats initLoopState ["adv_stream"] exTickResp).outputNames =
      ["adv_stream"] ∧
    (fetchStats initLoopState ["adv_stream"] exTickResp).prevStatus = none := by
  have h := c5_snapshot initLoopState ["adv_stream"] exTickResp (by decide)
  exact ⟨h.1, h.2.2.2.2⟩

/-- Claim C1: before subtraction the reconciler zeroes the render baseline
pair exactly when the baseline's `renderTotalFrames` is non-zero and the raw
current `renderTotalFrames` is below the raw previous one; the same rule is
applied independently to the global output-frame pair and per named output
(against that output's previous raw value found by name, an absent previous
entry leaving the baseline untouched for non-negative raw counters); with
baseline `renderTotalFrames = 100`, raw current 40 and raw previous 500, the
adjusted `renderTotalFrames` is 40, not −60. -/
theorem c1_rollback (state : State) (offset : FrameOffset)
    (hnd : ((currOutputs state).map Output.name).Nodup) :
    ((reconcileRollback state offset).renderTotalFrames =
      if offset.renderTotalFrames ≠ 0 ∧ currRenderTotal state < prevRenderTotal state
        then 0 else offset.renderTotalFrames) ∧
    ((reconcileRollback state offset).renderSkippedFrames =
      if offset.renderTotalFrames ≠ 0 ∧ currRenderTotal state < prevRenderTotal state
        then 0 else offset.renderSkippedFrames) ∧
    ((reconcileRollback state offset).outputTotalFrames =
      if offset.outputTotalFrames ≠ 0 ∧ currOutputTotal state < prevOutputTotal state
        then 0 else offset.outputTotalFrames) ∧
    ((reconcileRollback state offset).outputSkippedFrames =
      if offset.outputTotalFrames ≠ 0 ∧ currOutputTotal state < prevOutputTotal state
        then 0 else offset.outputSkippedFrames) ∧
    (∀ o ∈ currOutputs state,
      ((∃ e, lookupOutputOffset offset.outputs o.name = some e ∧
          e.outputTotalFrames ≠ 0) ∧
        o.status.outputTotalFrames <
          ((findPrevOutput state o.name).map
            (fun p => p.status.outputTotalFrames)).getD 0 →
        lookupOutputOffset (reconcileRollback state offset).outputs o.name =
          some ⟨0, 0⟩) ∧
      (¬ ((∃ e, lookupOutputOffset offset.outputs o.name = some e ∧
          e.outputTotalFrames ≠ 0) ∧
        o.status.outputTotalFrames <
          ((findPrevOutput state o.name).map
            (fun p => p.status.outputTotalFrames)).getD 0) →
        lookupOutputOffset (reconcileRollback state offset).outputs o.name =
          lookupOutputOffset offset.outputs o.name) ∧
      (findPrevOutput state o.name = none → 0 ≤ o.status.outputTotalFrames →
        lookupOutputOffset (reconcileRollback state offset).outputs o.name =
          lookupOutputOffset offset.outputs o.name)) ∧
    (∀ n, n ∉ (currOutputs state).map Output.name →
      lookupOutputOffset (reconcileRollback state offset).outputs n =
        lookupOutputOffset offset.outputs n) ∧
    (applyStatOffset exState exOffset).adjustedStats.renderTotalFrames = 40 := by
  refine ⟨(reconcile_render_fields state offset).1, (reconcile_render_fields state offset).2,
    (reconcile_output_fields state offset).1, (reconcile_output_fields state offset).2,
    ?_, reconcile_outputs_not_mem state offset, by decide⟩
  intro o ho
  have hmain := reconcile_outputs_eq state offset o ho hnd
  refine ⟨?_, ?_, ?_⟩
  · intro hc
    rw [hmain, if_pos ((outputRollbackCond_iff state offset o).mpr hc)]
  · intro hc
    rw [hmain, if_neg (fun hb => hc ((outputRollbackCond_iff state offset o).mp hb))]
  · intro hnone hpos
    rw [hmain, if_neg (fun hb => ?_)]
    obtain ⟨_, hlt⟩ := (outputRollbackCond_iff state offset o).mp hb
    rw [hnone] at hlt
    simp only [Option.map_none', Option.getD_none] at hlt
    exact absurd hpos (not_le.mpr hlt)

/-- Witness for C1: the claim's own concrete rollback-recovery scenario. -/
theorem c1_rollback_witness :
    (applyStatOffset exState exOffset).adjustedStats.renderTotalFrames = 40 :=
  (c1_rollback exState exOffset (by decide)).2.2.2.2.2.2

/-- Claim C2: after rollback correction, every adjusted tracked counter is
its raw value minus the corresponding baseline entry (an output name absent
from the baseline map contributing 0), applied with the same corrected
baseline to the current snapshot and — exactly when it exists — to the
previous snapshot. -/
theorem c2_subtraction (state : State) (offset : FrameOffset) :
    ((applyStatOffset state offset).adjustedStats.renderSkippedFrames =
      ((state.status.map Status.stats).getD nullObsStatus).renderSkippedFrames -
        (reconcileRollback state offset).renderSkippedFrames) ∧
    ((applyStatOffset state offset).adjustedStats.renderTotalFrames =
      ((state.status.map Status.stats).getD nullObsStatus).renderTotalFrames -
        (reconcileRollback state offset).renderTotalFrames) ∧
    ((applyStatOffset state offset).adjustedStats.outputSkippedFrames =
      ((state.status.map Status.stats).getD nullObsStatus).outputSkippedFrames -
        (reconcileRollback state offset).outputSkippedFrames) ∧
    ((applyStatOffset state offset).adjustedStats.outputTotalFrames =
      ((state.status.map Status.stats).getD nullObsStatus).outputTotalFrames -
        (reconcileRollback state offset).outputTotalFrames) ∧
    ((applyStatOffset state offset).adjustedPrevStats = none ↔
      state.prevStatus = none) ∧
    (∀ ps, state.prevStatus = some ps →
      ∃ aps, (applyStatOffset state offset).adjustedPrevStats = some aps ∧
        aps.renderSkippedFrames = ps.stats.renderSkippedFrames -
          (reconcileRollback state offset).renderSkippedFrames ∧
        aps.renderTotalFrames = ps.stats.renderTotalFrames -
          (reconcileRollback state offset).renderTotalFrames ∧
        aps.outputSkippedFrames = ps.stats.outputSkippedFrames -
          (reconcileRollback state offset).outputSkippedFrames ∧
        aps.outputTotalFrames = ps.stats.outputTotalFrames -
          (reconcileRollback state offset).outputTotalFrames) ∧
    (∀ i o, (currOutputs state).get? i = some o →
      ∃ o', (applyStatOffset state offset).adjustedOutputs.get? i = some o' ∧
        o'.name = o.name ∧
        o'.status.outputSkippedFrames = o.status.outputSkippedFrames -
          ((lookupOutputOffset (reconcileRollback state offset).outputs
            o.name).getD ⟨0, 0⟩).outputSkippedFrames ∧
        o'.status.outputTotalFrames = o.status.outputTotalFrames -
          ((lookupOutputOffset (reconcileRollback state offset).outputs
            o.name).getD ⟨0, 0⟩).outputTotalFrames) ∧
    (∀ i o, ((state.prevStatus.map Status.outputs).getD []).get? i = some o →
      ∃ o', (applyStatOffset state offset).adjustedPrevOutputs.get? i = some o' ∧
        o'.name = o.name ∧
        o'.status.outputSkippedFrames = o.status.outputSkippedFrames -
          ((lookupOutputOffset (reconcileRollback state offset).outputs
            o.name).getD ⟨0, 0⟩).outputSkippedFrames ∧
        o'.status.outputTotalFrames = o.status.outputTotalFrames -
          ((lookupOutputOffset (reconcileRollback state offset).outputs
            o.name).getD ⟨0, 0⟩).outputTotalFrames) := by
  refine ⟨rfl, rfl, rfl, rfl, ?_, ?_, ?_, ?_⟩
  · simp [applyStatOffset]
  · intro ps hps
    refine ⟨adjustStats (reconcileRollback state offset) ps.stats, ?_, rfl, rfl, rfl, rfl⟩
    show ((state.prevStatus.map Status.stats).map
      (adjustStats (reconcileRollback state offset))) = _
    rw [hps]
    rfl
  · intro i o h
    refine ⟨adjustOutput (reconcileRollback state offset) o, ?_, rfl, rfl, rfl⟩
    show ((currOutputs state).map (adjustOutput (reconcileRollback state offset))).get? i = _
    rw [List.get?_map, h]
    rfl
  · intro i o h
    refine ⟨adjustOutput (reconcileRollback state offset) o, ?_, rfl, rfl, rfl⟩
    show (((state.prevStatus.map Status.outputs).getD []).map
      (adjustOutput (reconcileRollback state offset))).get? i = _
    rw [List.get?_map, h]
    rfl

/-- Witness for C2 at a concrete state: the previous snapshot is adjusted
with the same corrected baseline as the current one. -/
theorem c2_subtraction_witness :
    (applyStatOffset exState exOffset).adjustedStats.renderTotalFrames =
      ((exState.status.map Status.stats).getD nullObsStatus).renderTotalFrames -
        (reconcileRollback exState exOffset).renderTotalFrames ∧
    ∃ aps, (applyStatOffset exState exOffset).adjustedPrevStats = some aps ∧
      aps.renderSkippedFrames = exStatsPrev.renderSkippedFrames -
        (reconcileRollback exState exOffset).renderSkippedFrames := by
  have h := c2_subtraction exState exOffset
  obtain ⟨aps, h1, h2, _⟩ := h.2.2.2.2.2.1 ⟨exStatsPrev, [exOutputPrev]⟩ rfl
  exact ⟨h.2.1, aps, h1, h2⟩

/-- Claim C10: `applyStatOffset` changes only the four frame-counter fields:
every other global-stats field and every other per-output field is returned
unchanged, and the adjusted output lists preserve the names and order of the
input snapshot's output lists. -/
theorem c10_frame (state : State) (offset : FrameOffset) :
    ((applyStatOffset state offset).adjustedStats.cpuUsage =
      ((state.status.map Status.stats).getD nullObsStatus).cpuUsage) ∧
    ((applyStatOffset state offset).adjustedStats.memoryUsage =
      ((state.status.map Status.stats).getD nullObsStatus).memoryUsage) ∧
    ((applyStatOffset state offset).adjustedStats.availableDiskSpace =
      ((state.status.map Status.stats).getD nullObsStatus).availableDiskSpace) ∧
    ((applyStatOffset state offset).adjustedStats.activeFps =
      ((state.status.map Status.stats).getD nullObsStatus).activeFps) ∧
    ((applyStatOffset state offset).adjustedStats.averageFrameRenderTime =
      ((state.status.map Status.stats).getD nullObsStatus).averageFrameRenderTime) ∧
    ((applyStatOffset state offset).adjustedStats.webSocketSessionIncomingMessages =
      ((state.status.map Status.stats).getD nullObsStatus).webSocketSessionIncomingMessages) ∧
    ((applyStatOffset state offset).adjustedStats.webSocketSessionOutgoingMessages =
      ((state.status.map Status.stats).getD nullObsStatus).webSocketSessionOutgoingMessages) ∧
    (∀ ps, state.prevStatus = some ps →
      ∃ aps, (applyStatOffset state offset).adjustedPrevStats = some aps ∧
        aps.cpuUsage = ps.stats.cpuUsage ∧
        aps.memoryUsage = ps.stats.memoryUsage ∧
        aps.availableDiskSpace = ps.stats.availableDiskSpace ∧
        aps.activeFps = ps.stats.activeFps ∧
        aps.averageFrameRenderTime = ps.stats.averageFrameRenderTime ∧
        aps.webSocketSessionIncomingMessages = ps.stats.webSocketSessionIncomingMessages ∧
        aps.webSocketSessionOutgoingMessages = ps.stats.webSocketSessionOutgoingMessages) ∧
    ((applyStatOffset state offset).adjustedOutputs.map Output.name =
      (currOutputs state).map Output.name) ∧
    ((applyStatOffset state offset).adjustedPrevOutputs.map Output.name =
      ((state.prevStatus.map Status.outputs).getD []).map Output.name) ∧
    (∀ i o, (currOutputs state).get? i = some o →
      ∃ o', (applyStatOffset state offset).adjustedOutputs.get? i = some o' ∧
        o'.status.outputActive = o.status.outputActive ∧
        o'.status.outputReconnecting = o.status.outputReconnecting ∧
        o'.status.outputTimecode = o.status.outputTimecode ∧
        o'.status.outputDuration = o.status.outputDuration ∧
        o'.status.outputCongestion = o.status.outputCongestion ∧
        o'.status.outputBytes = o.status.outputBytes) ∧
    (∀ i o, ((state.prevStatus.map Status.outputs).getD []).get? i = some o →
      ∃ o', (applyStatOffset state offset).adjustedPrevOutputs.get? i = some o' ∧
        o'.status.outputActive = o.status.outputActive ∧
        o'.status.outputReconnecting = o.status.outputReconnecting ∧
        o'.status.outputTimecode = o.status.outputTimecode ∧
        o'.status.outputDuration = o.status.outputDuration ∧
        o'.status.outputCongestion = o.status.outputCongestion ∧
        o'.status.outputBytes = o.status.outputBytes) := by
  have hname : (Output.name ∘ adjustOutput (reconcileRollback state offset)) =
      Output.name := funext fun o => rfl
  refine ⟨rfl, rfl, rfl, rfl, rfl, rfl, rfl, ?_, ?_, ?_, ?_, ?_⟩
  · intro ps hps
    refine ⟨adjustStats (reconcileRollback state offset) ps.stats, ?_,
      rfl, rfl, rfl, rfl, rfl, rfl, rfl⟩
    show ((state.prevStatus.map Status.stats).map
      (adjustStats (reconcileRollback state offset))) = _
    rw [hps]
    rfl
  · show ((currOutputs state).map (adjustOutput (reconcileRollback state offset))).map
      Output.name = _
    rw [List.map_map, hname]
  · show (((state.prevStatus.map Status.outputs).getD []).map
      (adjustOutput (reconcileRollback state offset))).map Output.name = _
    rw [List.map_map, hname]
  · intro i o h
    refine ⟨adjustOutput (reconcileRollback state offset) o, ?_,
      rfl, rfl, rfl, rfl, rfl, rfl⟩
    show ((currOutputs state).map (adjustOutput (reconcileRollback state offset))).get? i = _
    rw [List.get?_map, h]
    rfl
  · intro i o h
    refine ⟨adjustOutput (reconcileRollback state offset) o, ?_,
      rfl, rfl, rfl, rfl, rfl, rfl⟩
    show (((state.prevStatus.map Status.outputs).getD []).map
      (adjustOutput (reconcileRollback state offset))).get? i = _
    rw [List.get?_map, h]
    rfl

/-- Witness for C10 at a concrete state: names and order survive adjustment
and the non-counter fields are untouched. -/
theorem c10_frame_witness :
    (applyStatOffset exState exOffset).adjustedStats.cpuUsage =
      ((exState.status.map Status.stats).getD nullObsStatus).cpuUsage ∧
    ∃ o', (applyStatOffset exState exOffset).adjustedOutputs.get? 0 = some o' ∧
      o'.status.outputBytes = exOutputCur.status.outputBytes := by
  have h := c10_frame exState exOffset
  obtain ⟨o', h1, _, _, _, _, _, h7⟩ := h.2.2.2.2.2.2.2.2.2.2.1 0 exOutputCur rfl
  exact ⟨h.1, o', h1, h7⟩

/-- Claim C3 counterexample: a reset taken while the current snapshot pair
itself exhibits a rollback (raw current `renderTotalFrames` 40 below raw
previous 500) does not yield an all-zero adjusted current — the rollback
check clears the just-written baseline first, so the adjusted current
`renderTotalFrames` is 40, not 0. -/
theorem c3_counterexample :
    (applyStatOffset exState
        (reset exState nullFrameOffset)).adjustedStats.renderTotalFrames = 40 ∧
    (applyStatOffset exState
        (reset exState nullFrameOffset)).adjustedStats.renderTotalFrames ≠ 0 := by
  constructor <;> decide

/-- Claim C3 (amended): `reset` replaces the baseline wholesale,
independently of any prior baseline, and is therefore idempotent; and
immediately after a reset with no intervening tick the four adjusted current
counter types are all zero, provided the snapshot pair does not itself
exhibit a rollback in the corresponding counter group (raw current total
zero, or raw previous total not exceeding raw current total). -/
theorem c3_reset (state : State) (offset0 : FrameOffset)
    (hnd : ((currOutputs state).map Output.name).Nodup) :
    (∀ off1 off2 : FrameOffset, reset state off1 = reset state off2) ∧
    (reset state (reset state offset0) = reset state offset0) ∧
    ((currRenderTotal state = 0 ∨ prevRenderTotal state ≤ currRenderTotal state) →
      (applyStatOffset state
        (reset state offset0)).adjustedStats.renderSkippedFrames = 0 ∧
      (applyStatOffset state
        (reset state offset0)).adjustedStats.renderTotalFrames = 0) ∧
    ((currOutputTotal state = 0 ∨ prevOutputTotal state ≤ currOutputTotal state) →
      (applyStatOffset state
        (reset state offset0)).adjustedStats.outputSkippedFrames = 0 ∧
      (applyStatOffset state
        (reset state offset0)).adjustedStats.outputTotalFrames = 0) ∧
    (∀ i o, (currOutputs state).get? i = some o →
      (o.status.outputTotalFrames = 0 ∨
        ((findPrevOutput state o.name).map
          (fun p => p.status.outputTotalFrames)).getD 0 ≤ o.status.outputTotalFrames) →
      ∃ o', (applyStatOffset state
          (reset state offset0)).adjustedOutputs.get? i = some o' ∧
        o'.status.outputSkippedFrames = 0 ∧ o'.status.outputTotalFrames = 0) := by
  refine ⟨fun off1 off2 => rfl, rfl, ?_, ?_, ?_⟩
  · intro h
    have hcond : ¬((reset state offset0).renderTotalFrames ≠ 0 ∧
        currRenderTotal state < prevRenderTotal state) := by
      rintro ⟨h1, h2⟩
      rcases h with h | h
      · exact h1 h
      · exact absurd h2 (not_lt.mpr h)
    have hf := reconcile_render_fields state (reset state offset0)
    have hT : (reconcileRollback state (reset state offset0)).renderTotalFrames =
        (reset state offset0).renderTotalFrames := by
      rw [hf.1, if_neg hcond]
    have hS : (reconcileRollback state (reset state offset0)).renderSkippedFrames =
        (reset state offset0).renderSkippedFrames := by
      rw [hf.2, if_neg hcond]
    constructor
    · show ((state.status.map Status.stats).getD nullObsStatus).renderSkippedFrames -
        (reconcileRollback state (reset state offset0)).renderSkippedFrames = 0
      rw [hS]
      cases hs : state.status <;> simp [reset, hs, nullObsStatus]
    · show ((state.status.map Status.stats).getD nullObsStatus).renderTotalFrames -
        (reconcileRollback state (reset state offset0)).renderTotalFrames = 0
      rw [hT]
      cases hs : state.status <;> simp [reset, hs, nullObsStatus]
  · intro h
    have hcond : ¬((reset state offset0).outputTotalFrames ≠ 0 ∧
        currOutputTotal state < prevOutputTotal state) := by
      rintro ⟨h1, h2⟩
      rcases h with h | h
      · exact h1 h
      · exact absurd h2 (not_lt.mpr h)
    have hf := reconcile_output_fields state (reset state offset0)
    have hT : (reconcileRollback state (reset state offset0)).outputTotalFrames =
        (reset state offset0).outputTotalFrames := by
      rw [hf.1, if_neg hcond]
    have hS : (reconcileRollback state (reset state offset0)).outputSkippedFrames =
        (reset state offset0).outputSkippedFrames := by
      rw [hf.2, if_neg hcond]
    constructor
    · show ((state.status.map Status.stats).getD nullObsStatus).outputSkippedFrames -
        (reconcileRollback state (reset state offset0)).outputSkippedFrames = 0
      rw [hS]
      cases hs : state.status <;> simp [reset, hs, nullObsStatus]
    · show ((state.status.map Status.stats).getD nullObsStatus).outputTotalFrames -
        (reconcileRollback state (reset state offset0)).outputTotalFrames = 0
      rw [hT]
      cases hs : state.status <;> simp [reset, hs, nullObsStatus]
  · intro i o hio hyp
    have ho : o ∈ currOutputs state := List.get?_mem hio
    have hkeys : (((currOutputs state).map (fun x => (x.name,
        OutputFrameOffset.mk x.status.outputSkippedFrames
          x.status.outputTotalFrames))).map Prod.fst).Nodup := by
      rw [List.map_map]
      have hfst : (Prod.fst ∘ fun x : Output => (x.name,
          OutputFrameOffset.mk x.status.outputSkippedFrames
            x.status.outputTotalFrames)) = Output.name := funext fun _ => rfl
      rw [hfst]
      exact hnd
    have hlook : lookupOutputOffset (reset state offset0).outputs o.name =
        some ⟨o.status.outputSkippedFrames, o.status.outputTotalFrames⟩ := by
      show lookupOutputOffset (fromEntries ((currOutputs state).map (fun x => (x.name,
        OutputFrameOffset.mk x.status.outputSkippedFrames
          x.status.outputTotalFrames)))) o.name = _
      rw [fromEntries_of_nodup _ hkeys]
      exact lookup_map_mk (currOutputs state) _ o ho hnd
    have hnc : ¬ (outputRollbackCond state (reset state offset0) o = true) := by
      intro hb
      obtain ⟨⟨e, he, hene⟩, hlt⟩ :=
        (outputRollbackCond_iff state (reset state offset0) o).mp hb
      rw [hlook] at he
      obtain rfl := (Option.some.inj he).symm
      rcases hyp with h0 | hle
      · exact hene h0
      · exact absurd hlt (not_lt.mpr hle)
    have hmain := reconcile_outputs_eq state (reset state offset0) o ho hnd
    rw [if_neg hnc, hlook] at hmain
    refine ⟨adjustOutput (reconcileRollback state (reset state offset0)) o, ?_, ?_, ?_⟩
    · show ((currOutputs state).map
        (adjustOutput (reconcileRollback state (reset state offset0)))).get? i = _
      rw [List.get?_map, hio]
      rfl
    · show o.status.outputSkippedFrames -
        ((lookupOutputOffset (reconcileRollback state (reset state offset0)).outputs
          o.name).getD ⟨0, 0⟩).outputSkippedFrames = 0
      rw [hmain]
      simp
    · show o.status.outputTotalFrames -
        ((lookupOutputOffset (reconcileRollback state (reset state offset0)).outputs
          o.name).getD ⟨0, 0⟩).outputTotalFrames = 0
      rw [hmain]
      simp

/-- Witness for C3 on a rollback-free snapshot pair: reset drives the
adjusted current render counters to zero. -/
theorem c3_reset_witness :
    (applyStatOffset exStateNoRb
        (reset exStateNoRb nullFrameOffset)).adjustedStats.renderTotalFrames = 0 ∧
    (applyStatOffset exStateNoRb
        (reset exStateNoRb nullFrameOffset)).adjustedStats.renderSkippedFrames = 0 := by
  have h := (c3_reset exStateNoRb nullFrameOffset (by decide)).2.2.1 (Or.inr (by decide))
  exact ⟨h.2, h.1⟩

end ObsStats
